import Mathlib

/-!
Verification of the VIAMD trajectory loading subsystem (loader.h and its
translation unit): the format-dispatch registry, the loader-state builder,
the trajectory facade with its frame cache and post-decode transform, and
the process-wide table of open trajectories. External mdlib helpers
(string parsing, vector math, the frame cache, the per-format backends)
are abstracted at their call boundary; everything the loader itself does
is translated directly from the source.
-/

/-- Molecule-loader backend api pointers, one constructor per distinct
md_*_molecule_api() result (the three xyz rows of the table share the one
md_xyz_molecule_api() pointer, hence the one xyz constructor). -/
inductive MolApi | pdb | gro | xyz | mmcif | lammps
deriving DecidableEq

/-- Trajectory-loader backend api pointers, one constructor per distinct
md_*_trajectory_loader() result. -/
inductive TrajApi | pdb | xtc | trr | xyz
deriving DecidableEq

/-- The mol_loader_t enumeration of the source. -/
inductive MolLoaderT | unknown | pdb | gro | xyz | cif | lammps
deriving DecidableEq

/-- The traj_loader_t enumeration of the source. -/
inductive TrajLoaderT | unknown | pdb | xtc | trr | xyz
deriving DecidableEq

/-- The mol_loader_ext array, indexed by mol_loader_t (index 0 holds the
empty string; the lookup loops start at index 1). -/
def mol_loader_ext : MolLoaderT → String
  | .unknown => ""
  | .pdb => "pdb"
  | .gro => "gro"
  | .xyz => "xyz;xmol;arc"
  | .cif => "cif"
  | .lammps => "data"

/-- The traj_loader_ext array, indexed by traj_loader_t. -/
def traj_loader_ext : TrajLoaderT → String
  | .unknown => ""
  | .pdb => "pdb"
  | .xtc => "xtc"
  | .trr => "trr"
  | .xyz => "xyz;xmol;arc"

/-- The nonzero mol_loader_t values, in the order the lookup loop visits
them (i = 1 .. MOL_LOADER_COUNT-1). -/
def molLoaderOrder : List MolLoaderT := [.pdb, .gro, .xyz, .cif, .lammps]

/-- The nonzero traj_loader_t values, in loop order. -/
def trajLoaderOrder : List TrajLoaderT := [.pdb, .xtc, .trr, .xyz]

/-- The mol_loader_api array, indexed by mol_loader_t. -/
def mol_loader_api : MolLoaderT → Option MolApi
  | .unknown => none
  | .pdb => some .pdb
  | .gro => some .gro
  | .xyz => some .xyz
  | .cif => some .mmcif
  | .lammps => some .lammps

/-- The traj_loader_api array, indexed by traj_loader_t. -/
def traj_loader_api : TrajLoaderT → Option TrajApi
  | .unknown => none
  | .pdb => some .pdb
  | .xtc => some .xtc
  | .trr => some .trr
  | .xyz => some .xyz

/-- ASCII tolower on one character, as the mdlib string helpers apply it. -/
def char_to_lower (c : Char) : Char :=
  if 65 ≤ c.toNat ∧ c.toNat ≤ 90 then Char.ofNat (c.toNat + 32) else c

/-- A string's characters lowered, the normal form str_eq_ignore_case
compares. -/
def str_to_lower (s : String) : List Char := s.data.map char_to_lower

/-- str_eq_ignore_case of the mdlib core: ASCII case-insensitive string
equality. -/
def str_eq_ignore_case (a b : String) : Bool :=
  str_to_lower a == str_to_lower b

/-- str_eq_ignore_case with the second operand already a token (character
list) produced by extract_tokens_delim. -/
def str_eq_ignore_case_tok (a : String) (t : List Char) : Bool :=
  str_to_lower a == t.map char_to_lower

/-- extract_tokens_delim with the semicolon delimiter, as the extension
lookups use it. -/
def extract_tokens_delim (s : String) : List (List Char) :=
  s.data.splitOn ';'

/-- mol_loader_from_ext (source lines 259-271): scan the mol_loader_ext
entries from index 1, split each on semicolons, compare each token to the
query with str_eq_ignore_case, return the first matching enum value, else
MOL_LOADER_UNKNOWN. -/
def mol_loader_from_ext (ext : String) : MolLoaderT :=
  match molLoaderOrder.find?
      (fun l => (extract_tokens_delim (mol_loader_ext l)).any
        (fun t => str_eq_ignore_case_tok ext t)) with
  | some l => l
  | none => .unknown

/-- traj_loader_from_ext (source lines 273-285), same scheme over the
traj_loader_ext entries. -/
def traj_loader_from_ext (ext : String) : TrajLoaderT :=
  match trajLoaderOrder.find?
      (fun l => (extract_tokens_delim (traj_loader_ext l)).any
        (fun t => str_eq_ignore_case_tok ext t)) with
  | some l => l
  | none => .unknown

/-- One row of the load::table registry. -/
structure TableEntry where
  name : String
  ext : String
  mol : Option MolApi
  traj : Option TrajApi
  flags : Nat
deriving DecidableEq

/-- load::table (source lines 212-257): the nine-row compile-time table.
The braced initializer in the source supplies only the name, ext,
mol_loader and traj_loader members; the flags member is absent, so C++
aggregate initialization value-initializes every flags entry to zero. -/
def table : List TableEntry := [
  { name := "Standard Protein Data Bank (pdb)", ext := "pdb",
    mol := some .pdb, traj := some .pdb, flags := 0 },
  { name := "Gromacs Structure (gro)", ext := "gro",
    mol := some .gro, traj := none, flags := 0 },
  { name := "Gromacs Compressed Trajectory (xtc)", ext := "xtc",
    mol := none, traj := some .xtc, flags := 0 },
  { name := "Gromacs Lossless Trajectory (trr)", ext := "trr",
    mol := none, traj := some .trr, flags := 0 },
  { name := "xyz (xyz)", ext := "xyz",
    mol := some .xyz, traj := some .xyz, flags := 0 },
  { name := "xyz (xmol)", ext := "xmol",
    mol := some .xyz, traj := some .xyz, flags := 0 },
  { name := "xyz (arc)", ext := "arc",
    mol := some .xyz, traj := some .xyz, flags := 0 },
  { name := "PDBx/mmCIF (cif)", ext := "cif",
    mol := some .mmcif, traj := none, flags := 0 },
  { name := "LAMMPS (data)", ext := "data",
    mol := some .lammps, traj := none, flags := 0 }]

/-- load::mol::loader_from_ext (source lines 334-341): linear scan of the
table comparing the query to each row's ext with str_eq (exact byte
equality); returns the matching row's molecule api pointer (which can be
null, e.g. for the xtc row). -/
def mol.loader_from_ext (ext : String) : Option MolApi :=
  match table.find? (fun e => e.ext == ext) with
  | some e => e.mol
  | none => none

/-- load::traj::loader_from_ext (source lines 358-365), same exact-match
scan returning the row's trajectory api pointer. -/
def traj.loader_from_ext (ext : String) : Option TrajApi :=
  match table.find? (fun e => e.ext == ext) with
  | some e => e.traj
  | none => none

/-- load::mol::loader_requires_dialogue (source lines 343-352): for a
non-null loader, find the table row holding that pointer and test its
flags against FLAG_REQUIRES_DIALOGUE (bit 0); null loaders and pointers
absent from the table give false. -/
def mol.loader_requires_dialogue (loader : Option MolApi) : Bool :=
  match loader with
  | none => false
  | some l =>
    match table.find? (fun e => e.mol == some l) with
    | some e => (e.flags &&& 1) != 0
    | none => false

/-- Size in bytes of md_lammps_molecule_loader_arg_t, external to this
repository; only its positivity matters to the model. -/
def lammpsArgSizeBytes : Nat := 24

/-- load::LoaderState (loader.h): backend pointers, optional argument
blob and flags, all zero-initialized. The blob pointer pair
(data_ptr, mol_loader_arg) is modelled by the booleans data_allocated and
mol_loader_arg, true when the corresponding pointer is non-null. -/
structure LoaderState where
  mol_loader : Option MolApi := none
  traj_loader : Option TrajApi := none
  mol_loader_arg : Bool := false
  flags : Nat := 0
  data_size : Nat := 0
  data_allocated : Bool := false
deriving DecidableEq

/-- mol_loader_preload_check (source lines 170-190): only the LAMMPS
loader has a preflight. The external md_lammps_atom_format_from_file call
is abstracted by its outcome formatKnown: a known format is encoded into
an allocated argument blob, an unknown one sets
LoaderStateFlag_RequiresDialogue (bit 0). -/
def mol_loader_preload_check (st : LoaderState) (loader : MolLoaderT)
    (formatKnown : Bool) : LoaderState :=
  match loader with
  | .lammps =>
    if formatKnown then
      { st with data_size := lammpsArgSizeBytes, data_allocated := true,
                mol_loader_arg := true }
    else
      { st with flags := st.flags ||| 1 }
  | _ => st

/-- init_loader_state (source lines 287-309): zero the state, extract the
extension (the external extract_ext is abstracted by its optional result),
consult both extension registries, run the preflights for the backends
found, and return whether at least one backend was identified. -/
def init_loader_state (ext : Option String) (formatKnown : Bool) :
    LoaderState × Bool :=
  let ml := match ext with
    | some e => mol_loader_from_ext e
    | none => MolLoaderT.unknown
  let tl := match ext with
    | some e => traj_loader_from_ext e
    | none => TrajLoaderT.unknown
  let st0 : LoaderState := {}
  let st1 := if ml != .unknown then
      mol_loader_preload_check { st0 with mol_loader := mol_loader_api ml }
        ml formatKnown
    else st0
  let st2 := if tl != .unknown then
      { st1 with traj_loader := traj_loader_api tl }
    else st1
  (st2, (ml != .unknown) || (tl != .unknown))

/-- Congruence of the case-insensitive token comparison: queries with the
same lowered form match exactly the same tokens. -/
theorem str_eq_ignore_case_tok_congr (e1 e2 : String) (t : List Char)
    (h : str_to_lower e1 = str_to_lower e2) :
    str_eq_ignore_case_tok e1 t = str_eq_ignore_case_tok e2 t := by
  simp [str_eq_ignore_case_tok, h]

/-- C4 counterexample: load::mol::loader_from_ext and
load::traj::loader_from_ext compare extensions with str_eq, not
str_eq_ignore_case. The query PDB differs from the registered token pdb
only in letter case, yet both lookups return null for it while returning
the pdb backends for the registered token itself. -/
theorem c4_counterexample :
    str_eq_ignore_case "PDB" "pdb" = true ∧
    mol.loader_from_ext "PDB" = none ∧
    mol.loader_from_ext "pdb" = some MolApi.pdb ∧
    traj.loader_from_ext "PDB" = none ∧
    traj.loader_from_ext "pdb" = some TrajApi.pdb := by
  refine ⟨?_, ?_, ?_, ?_, ?_⟩ <;> rfl

/-- C4 amended: the table lookups load::mol::loader_from_ext and
load::traj::loader_from_ext match extensions by exact string equality (see
the counterexample); the case-insensitive matching the spec describes is
performed by mol_loader_from_ext and traj_loader_from_ext, which
init_loader_state uses to select backends: their result is invariant under
any change of letter case in the queried extension. -/
theorem c4_amended_enum_lookup_case_insensitive (e1 e2 : String)
    (h : str_to_lower e1 = str_to_lower e2) :
    mol_loader_from_ext e1 = mol_loader_from_ext e2 ∧
    traj_loader_from_ext e1 = traj_loader_from_ext e2 := by
  have hm : (fun l => (extract_tokens_delim (mol_loader_ext l)).any
        (fun t => str_eq_ignore_case_tok e1 t))
      = (fun l => (extract_tokens_delim (mol_loader_ext l)).any
        (fun t => str_eq_ignore_case_tok e2 t)) := by
    funext l
    congr 1
    funext t
    exact str_eq_ignore_case_tok_congr e1 e2 t h
  have ht : (fun l => (extract_tokens_delim (traj_loader_ext l)).any
        (fun t => str_eq_ignore_case_tok e1 t))
      = (fun l => (extract_tokens_delim (traj_loader_ext l)).any
        (fun t => str_eq_ignore_case_tok e2 t)) := by
    funext l
    congr 1
    funext t
    exact str_eq_ignore_case_tok_congr e1 e2 t h
  constructor
  · unfold mol_loader_from_ext
    rw [hm]
  · unfold traj_loader_from_ext
    rw [ht]

/-- C4 amended witness: the amended theorem applied to the concrete pair
PDB / pdb, whose lowered forms coincide. -/
theorem c4_amended_witness :
    mol_loader_from_ext "PDB" = mol_loader_from_ext "pdb" ∧
    traj_loader_from_ext "PDB" = traj_loader_from_ext "pdb" :=
  c4_amended_enum_lookup_case_insensitive "PDB" "pdb" (by decide)

/-- C8: init_loader_state returns true exactly when the path carries an
extension that maps to at least one registered molecule or trajectory
backend, and on failure the returned state is the zeroed one: no backend
pointers, no flags, no argument blob allocated. -/
theorem c8_init_loader_state (ext : Option String) (formatKnown : Bool) :
    ((init_loader_state ext formatKnown).2 = true ↔
      ∃ e, ext = some e ∧
        (mol_loader_from_ext e ≠ .unknown ∨ traj_loader_from_ext e ≠ .unknown)) ∧
    ((init_loader_state ext formatKnown).2 = false →
      (init_loader_state ext formatKnown).1 = {}) := by
  cases ext with
  | none => simp [init_loader_state]
  | some e =>
    by_cases hm : mol_loader_from_ext e = .unknown <;>
      by_cases ht : traj_loader_from_ext e = .unknown <;>
        simp [init_loader_state, hm, ht]

/-- C10: loader_requires_dialogue is constantly false. The load::table
initializer omits the flags member, so aggregate initialization zeroes all
nine entries and no row carries FLAG_REQUIRES_DIALOGUE; the dialogue
condition is signalled only through the LoaderState flag word, which the
LAMMPS preflight sets when the atom format cannot be sniffed. -/
theorem c10_loader_requires_dialogue_false :
    (∀ loader : Option MolApi, mol.loader_requires_dialogue loader = false) ∧
    ((mol_loader_preload_check {} MolLoaderT.lammps false).flags &&& 1 = 1) := by
  constructor
  · intro loader
    cases loader with
    | none => rfl
    | some l => cases l <;> rfl
  · decide

/-- A coordinate triple (vec3_t). The scalar type is a parameter: the
facade never computes on coordinates itself, it only moves them through
the external mdlib vector helpers, so every claim about it holds for the
bit patterns themselves. -/
abbrev Vec3 (α : Type) := α × α × α

/-- A 3x3 basis (mat3_t), three column vectors. -/
abbrev Mat3 (α : Type) := Vec3 (Vec3 α)

/-- md_unit_cell_t as the facade reads it: the flags word (nonzero means a
cell is present) and the basis matrix. -/
structure UnitCell (α : Type) where
  flags : Nat
  basis : Mat3 α
deriving DecidableEq

/-- md_trajectory_frame_header_t: atom count, unit cell and the remaining
scalar fields (time), carried through verbatim. -/
structure FrameHeader (α : Type) where
  num_atoms : Nat
  unit_cell : UnitCell α
  time : α
deriving DecidableEq

/-- md_frame_data_t: a decoded frame, header plus the x, y, z coordinate
arrays. -/
structure FrameData (α : Type) where
  header : FrameHeader α
  x : List α
  y : List α
  z : List α
deriving DecidableEq

/-- The slice of md_molecule_t the facade reads: atom count, per-atom
masses, and the structure index set used by deperiodization. -/
structure Molecule (α : Type) where
  atom_count : Nat
  mass : List α
  structures : List (List Nat)

/-- A backend trajectory as the facade consumes it: md_trajectory_num_atoms,
md_trajectory_num_frames, and the fetch-then-decode pipeline
(md_trajectory_fetch_frame_data + md_trajectory_decode_frame_data),
abstracted as one partial map from frame index to decoded frame (none
models a decode failure). -/
structure Backend (α : Type) where
  num_atoms : Nat
  num_frames : Nat
  decode : Nat → Option (FrameData α)

/-- The external mdlib math helpers the post-decode transform calls:
mat3_mul_vec3 applied to (1,1,1), md_util_compute_com_ortho,
md_util_com_compute, vec3_deperiodize, scaling by 0.5, vec3 subtraction
and negation, vec3_batch_translate_inplace and
md_util_deperiodize_system. They live outside this repository and are
abstracted as operation parameters; the claims below are about how the
loader composes them. -/
structure ExtOps (α : Type) where
  mat3_mul_ones : Mat3 α → Vec3 α
  com_ortho : List α → List α → List α → List α → List Nat → Vec3 α → Vec3 α
  com_compute : List α → List α → List α → List α → List Nat → Vec3 α
  vec3_deperiodize : Vec3 α → Vec3 α → Vec3 α → Vec3 α
  half : Vec3 α → Vec3 α
  sub : Vec3 α → Vec3 α → Vec3 α
  neg : Vec3 α → Vec3 α
  batch_translate : List α → List α → List α → Vec3 α → List α × List α × List α
  deperiodize_system :
    List α → List α → List α → Molecule α → UnitCell α → List α × List α × List α

/-- LoadedTrajectory (source lines 100-109): the facade state one
open-trajectories table slot owns. The recenter bitfield is modelled by
the index list md_bitfield_extract_indices would produce (empty list =
empty bitfield); the loader and allocator handles carry no behavior the
claims touch. cache_capacity records the frame count passed to
md_frame_cache_init. -/
structure LoadedTrajectory (α : Type) where
  key : Nat
  mol : Molecule α
  traj : Backend α
  cache : List (Nat × FrameData α)
  cache_capacity : Nat
  recenter_target : List Nat
  deperiodize : Bool

/-- The three coordinates of atom i of a frame. -/
def atomPos {α : Type} [Inhabited α] (fd : FrameData α) (i : Nat) : Vec3 α :=
  (fd.x.getD i default, fd.y.getD i default, fd.z.getD i default)

/-- The recenter branch of decode_frame_data (source lines 408-438): when
the recenter bitfield is nonempty, extract its indices, compute
box_ext = mat3_mul_vec3(basis, (1,1,1)) and the center of mass com - the
single atom's position when one index is set, else the periodic-aware
com (cell present) or the plain mass-weighted com - then translate every
atom by box_ext/2 - com (cell present) or -com. -/
def recenter_frame {α : Type} [Inhabited α] (ops : ExtOps α) (mol : Molecule α)
    (mask : List Nat) (fd : FrameData α) : FrameData α :=
  if mask.isEmpty then fd
  else
    let count := mask.length
    if count = 0 then fd
    else
      let indices := mask
      let cell := fd.header.unit_cell
      let have_cell : Bool := cell.flags != 0
      let box_ext := ops.mat3_mul_ones cell.basis
      let com :=
        if count = 1 then atomPos fd (indices.headD 0)
        else if have_cell then
          ops.vec3_deperiodize
            (ops.com_ortho fd.x fd.y fd.z mol.mass indices box_ext)
            (ops.half box_ext) box_ext
        else ops.com_compute fd.x fd.y fd.z mol.mass indices
      let trans := if have_cell then ops.sub (ops.half box_ext) com else ops.neg com
      let xyz := ops.batch_translate fd.x fd.y fd.z trans
      { fd with x := xyz.1, y := xyz.2.1, z := xyz.2.2 }

/-- The deperiodize branch of decode_frame_data (source lines 440-442):
runs only when the flag is set and the frame carries a unit cell. -/
def deperiodize_frame {α : Type} (ops : ExtOps α) (mol : Molecule α)
    (deper : Bool) (fd : FrameData α) : FrameData α :=
  if deper && (fd.header.unit_cell.flags != 0) then
    let xyz := ops.deperiodize_system fd.x fd.y fd.z mol fd.header.unit_cell
    { fd with x := xyz.1, y := xyz.2.1, z := xyz.2.2 }
  else fd

/-- The full post-decode transform applied to a freshly decoded frame
before it populates its cache slot (source lines 398-443). -/
def post_decode_transform {α : Type} [Inhabited α] (ops : ExtOps α)
    (mol : Molecule α) (mask : List Nat) (deper : Bool)
    (fd : FrameData α) : FrameData α :=
  deperiodize_frame ops mol deper (recenter_frame ops mol mask fd)

/-- Modelled from the spec: md_frame_cache lives in the external mdlib.
Spec 4.3 specifies find_or_reserve as returning the populated slot for an
index when one exists, else reserving a slot for the caller to populate.
The cache is modelled as an association list from frame index to frame
data; eviction, which only forgets entries, is not modelled. -/
def cacheLookup {α : Type} (cache : List (Nat × FrameData α)) (idx : Nat) :
    Option (FrameData α) :=
  match cache.find? (fun p => p.1 == idx) with
  | some p => some p.2
  | none => none

/-- Outcome of decode_frame_data: an ASSERT violation (the source, built
with assertions enabled, aborts), a backend decode failure (the function
returns false, the reservation unpopulated), or success carrying the
frame handed to the caller's buffers and the updated facade state. -/
inductive DecodeResult (α : Type) where
  | assert_violation
  | decode_failed
  | ok (fd : FrameData α) (lt : LoadedTrajectory α)

/-- The frame a decode handed out, if any. -/
def decodedFrame {α : Type} : DecodeResult α → Option (FrameData α)
  | .ok fd _ => some fd
  | _ => none

/-- decode_frame_data of the facade (source lines 379-461). The 8-byte
data blob written by fetch_frame_data carries only the frame index, so
the model takes idx directly; the data_size == 8 assertion holds by
construction for blobs produced by fetch_frame_data / load_frame. The
index assertion 0 <= idx < num_frames is checked first; then the cache is
consulted, and on a miss the backend decodes and the post-decode
transform runs before the slot is populated and copied out. -/
def decode_frame_data {α : Type} [Inhabited α] (ops : ExtOps α)
    (lt : LoadedTrajectory α) (idx : Int) : DecodeResult α :=
  if 0 ≤ idx ∧ idx < (lt.traj.num_frames : Int) then
    match cacheLookup lt.cache idx.toNat with
    | some fd => .ok fd lt
    | none =>
      match lt.traj.decode idx.toNat with
      | none => .decode_failed
      | some raw =>
        .ok (post_decode_transform ops lt.mol lt.recenter_target
            lt.deperiodize raw)
          { lt with cache :=
              (idx.toNat, post_decode_transform ops lt.mol lt.recenter_target
                lt.deperiodize raw) :: lt.cache }
  else .assert_violation

/-- load_frame (source lines 463-466): writes the index into an 8-byte
blob on the stack and calls decode_frame_data on it. -/
def load_frame {α : Type} [Inhabited α] (ops : ExtOps α)
    (lt : LoadedTrajectory α) (idx : Int) : DecodeResult α :=
  decode_frame_data ops lt idx

/-- The process-wide open-trajectories table (source lines 114-115): the
loaded_trajectories array of bound 8 together with its count, as a list;
destroyed_backends instruments the loader->destroy(internal_traj) calls
so that destruction is observable in theorems. -/
structure Registry (α : Type) where
  loaded_trajectories : List (LoadedTrajectory α)
  destroyed_backends : Nat

/-- find_loaded_trajectory (source lines 140-145): linear scan by key. -/
def find_loaded_trajectory {α : Type} (reg : Registry α) (key : Nat) :
    Option (LoadedTrajectory α) :=
  reg.loaded_trajectories.find? (fun e => e.key == key)

/-- Replace the first entry carrying the key, as writes through the
pointer find_loaded_trajectory returns do. -/
def update_loaded_trajectory {α : Type} (entries : List (LoadedTrajectory α))
    (key : Nat) (f : LoadedTrajectory α → LoadedTrajectory α) :
    List (LoadedTrajectory α) :=
  match entries with
  | [] => []
  | e :: es =>
    if e.key == key then f e :: es
    else e :: update_loaded_trajectory es key f

/-- The compile-time and machine parameters open_file reads:
MEGABYTES(VIAMD_FRAME_CACHE_SIZE) as a byte count, and
md_os_physical_ram(). -/
structure Env where
  configured_cache_bytes : Nat
  physical_ram : Nat

/-- The CLAMP macro of the mdlib core. -/
def CLAMP (v lo hi : Nat) : Nat := min (max v lo) hi

/-- How open_file returns: one constructor per return statement. The
three null constructors are the three `return NULL` statements
(unsupported extension, loader->create failure, atom-count mismatch after
destroying the backend); assert_violation stands for a failed ASSERT in
alloc_loaded_trajectory (an abort in asserting builds, there being no
capacity or duplicate-key check that returns). -/
inductive OpenResult where
  | null_unsupported_ext
  | null_create_failed
  | null_incompatible
  | assert_violation
  | opened (key : Nat)
deriving DecidableEq

/-- Whether open_file executed one of its `return NULL` statements. -/
def OpenResult.returns_null : OpenResult → Bool
  | .null_unsupported_ext => true
  | .null_create_failed => true
  | .null_incompatible => true
  | _ => false

/-- The loader resolution at the top of open_file (source lines 472-481):
the explicit loader argument, or a load::traj::loader_from_ext lookup on
the filename's extracted extension (extract_ext abstracted by its
optional result). -/
def resolve_loader (loaderArg : Option TrajApi) (ext : Option String) :
    Option TrajApi :=
  match loaderArg with
  | some l => some l
  | none =>
    match ext with
    | some e => traj.loader_from_ext e
    | none => none

/-- open_file (source lines 468-525). `create` abstracts the external
loader->create(filename, alloc) call; `key` is the address of the freshly
allocated md_trajectory_i vtable, the handle under which
alloc_loaded_trajectory registers the facade. On success the new entry is
pushed onto the table with an empty cache (capacity computed from the
environment), an empty recenter bitfield and deperiodize = false. -/
def open_file {α : Type} (env : Env) (reg : Registry α)
    (loaderArg : Option TrajApi) (ext : Option String)
    (create : TrajApi → Option (Backend α)) (mol : Molecule α) (key : Nat) :
    Registry α × OpenResult :=
  match resolve_loader loaderArg ext with
  | none => (reg, .null_unsupported_ext)
  | some l =>
    match create l with
    | none => (reg, .null_create_failed)
    | some internal_traj =>
      if internal_traj.num_atoms ≠ mol.atom_count then
        ({ reg with destroyed_backends := reg.destroyed_backends + 1 },
          .null_incompatible)
      else if (find_loaded_trajectory reg key).isSome then
        (reg, .assert_violation)
      else if reg.loaded_trajectories.length < 8 then
        let frame_cache_size :=
          CLAMP env.configured_cache_bytes (4 * 1024 * 1024) (env.physical_ram / 4)
        let approx_frame_size := mol.atom_count * 3 * 4
        let max_num_cache_frames := frame_cache_size / approx_frame_size
        let num_cache_frames := min internal_traj.num_frames max_num_cache_frames
        let inst : LoadedTrajectory α :=
          { key := key, mol := mol, traj := internal_traj, cache := [],
            cache_capacity := num_cache_frames, recenter_target := [],
            deperiodize := false }
        ({ reg with loaded_trajectories := reg.loaded_trajectories ++ [inst] },
          .opened key)
      else (reg, .assert_violation)

/-- set_recenter_target (source lines 541-556): look the handle up; on
success copy the mask into the facade state (md_bitfield_copy) or clear
it when the mask pointer is null (md_bitfield_clear) and return true; on
an unknown handle return false. The frame cache is left untouched. -/
def set_recenter_target {α : Type} (reg : Registry α) (key : Nat)
    (mask : Option (List Nat)) : Registry α × Bool :=
  match find_loaded_trajectory reg key with
  | some _ =>
    let newMask := match mask with
      | some m => m
      | none => []
    let entries := update_loaded_trajectory reg.loaded_trajectories key
      (fun e => { e with recenter_target := newMask })
    ({ reg with loaded_trajectories := entries }, true)
  | none => (reg, false)

/-- load_frame reached through a handle: traj->inst points at the facade
entry, whose decode_frame_data runs and whose state (the cache) the call
updates in place. Returns the frame handed to the caller's buffers when
the decode succeeds. -/
def registry_load_frame {α : Type} [Inhabited α] (ops : ExtOps α)
    (reg : Registry α) (key : Nat) (idx : Int) :
    Registry α × Option (FrameData α) :=
  match find_loaded_trajectory reg key with
  | none => (reg, none)
  | some e =>
    match decode_frame_data ops e idx with
    | .ok fd lt2 =>
      let entries := update_loaded_trajectory reg.loaded_trajectories key
        (fun _ => lt2)
      ({ reg with loaded_trajectories := entries }, some fd)
    | _ => (reg, none)

/-- With an empty recenter bitfield and the deperiodize flag clear, the
post-decode transform leaves the decoded frame untouched. -/
theorem post_decode_transform_id {α : Type} [Inhabited α] (ops : ExtOps α)
    (mol : Molecule α) (fd : FrameData α) :
    post_decode_transform ops mol [] false fd = fd := by
  simp [post_decode_transform, recenter_frame, deperiodize_frame]

/-- A successful cache lookup returns an entry of the cache list. -/
theorem cacheLookup_mem {α : Type} (cache : List (Nat × FrameData α)) (i : Nat)
    (fd : FrameData α) (h : cacheLookup cache i = some fd) : (i, fd) ∈ cache := by
  unfold cacheLookup at h
  cases hf : cache.find? (fun p => p.1 == i) with
  | none => rw [hf] at h; exact absurd h (by simp)
  | some p =>
    rw [hf] at h
    obtain ⟨a, b⟩ := p
    have hp := List.mem_of_find?_eq_some hf
    have ha : a = i := by simpa using List.find?_some hf
    have hb : b = fd := by simpa using h
    rw [ha, hb] at hp
    exact hp

/-- The invariant of a handle whose recenter mask has always been empty
and whose deperiodize flag has always been false: every cached frame is
exactly the backend's decode of its index. open_file establishes it (the
cache starts empty) and, per the claim C1 theorem, such decodes preserve
it. -/
def cache_coherent {α : Type} (lt : LoadedTrajectory α) : Prop :=
  ∀ i fd, (i, fd) ∈ lt.cache → lt.traj.decode i = some fd

/-- Concrete operations over Int coordinates instantiating the abstract
mdlib helpers for witnesses and counterexamples: translation adds the
vector componentwise and negation negates it; the com helpers for masks
of two or more atoms are inert stubs, no concrete run below reaching
them. -/
def intOps : ExtOps Int where
  mat3_mul_ones := fun b => b.1
  com_ortho := fun _ _ _ _ _ _ => (0, 0, 0)
  com_compute := fun _ _ _ _ _ => (0, 0, 0)
  vec3_deperiodize := fun v _ _ => v
  half := fun v => v
  sub := fun a b => (a.1 - b.1, a.2.1 - b.2.1, a.2.2 - b.2.2)
  neg := fun v => (-v.1, -v.2.1, -v.2.2)
  batch_translate := fun x y z t =>
    (x.map (fun v => v + t.1), y.map (fun v => v + t.2.1),
      z.map (fun v => v + t.2.2))
  deperiodize_system := fun x y z _ _ => (x, y, z)

/-- A unit cell whose flags word is zero: no cell present. -/
def sampleCell : UnitCell Int := { flags := 0, basis := ((0,0,0),(0,0,0),(0,0,0)) }

/-- A one-atom frame with the atom at (1, 2, 3). -/
def sampleFrame : FrameData Int :=
  { header := { num_atoms := 1, unit_cell := sampleCell, time := 0 },
    x := [1], y := [2], z := [3] }

/-- A one-atom molecule. -/
def sampleMol : Molecule Int := { atom_count := 1, mass := [1], structures := [] }

/-- A backend with one frame and one atom, decoding frame 0 to
sampleFrame. -/
def sampleBackend : Backend Int :=
  { num_atoms := 1, num_frames := 1,
    decode := fun i => if i = 0 then some sampleFrame else none }

/-- A freshly opened facade over sampleBackend: empty cache, empty
recenter mask, deperiodize off. -/
def sampleLT : LoadedTrajectory Int :=
  { key := 1, mol := sampleMol, traj := sampleBackend, cache := [],
    cache_capacity := 1, recenter_target := [], deperiodize := false }

/-- C1: for a handle whose recenter mask is empty and whose deperiodize
flag is false (its cache, per cache_coherent, holding only frames such
decodes produced), a successful decode_frame_data hands the caller the
backend's decode of the same frame index - header and x, y, z arrays bit
for bit - the invariant is preserved by the updated state, and load_frame
is the same call on the same blob. -/
theorem c1_decode_matches_backend {α : Type} [Inhabited α] (ops : ExtOps α)
    (lt : LoadedTrajectory α) (idx : Int) (fd : FrameData α)
    (lt2 : LoadedTrajectory α)
    (hmask : lt.recenter_target = [])
    (hdeper : lt.deperiodize = false)
    (hcache : cache_coherent lt)
    (hok : decode_frame_data ops lt idx = .ok fd lt2) :
    lt.traj.decode idx.toNat = some fd ∧ cache_coherent lt2 ∧
      load_frame ops lt idx = decode_frame_data ops lt idx := by
  unfold decode_frame_data at hok
  split at hok
  · split at hok
    · rename_i fd0 hl
      injection hok with h1 h2
      subst h1
      subst h2
      exact ⟨hcache idx.toNat fd0 (cacheLookup_mem lt.cache idx.toNat fd0 hl),
        hcache, rfl⟩
    · rename_i hl
      split at hok
      · exact DecodeResult.noConfusion hok
      · rename_i raw hd
        rw [hmask, hdeper, post_decode_transform_id] at hok
        injection hok with h1 h2
        subst h1
        subst h2
        refine ⟨hd, ?_, rfl⟩
        intro j g hmem
        rcases List.mem_cons.mp hmem with hhead | htail
        · injection hhead with hj hg
          subst hj
          subst hg
          exact hd
        · exact hcache j g htail
  · exact DecodeResult.noConfusion hok

/-- C1 witness: the theorem applied to a freshly opened concrete handle
(empty mask, deperiodize off, empty cache) decoding frame 0. -/
theorem c1_witness : sampleBackend.decode 0 = some sampleFrame :=
  (c1_decode_matches_backend intOps sampleLT 0 sampleFrame
    { sampleLT with cache := [(0, sampleFrame)] }
    rfl rfl
    (fun _ _ h => absurd h (List.not_mem_nil _))
    rfl).1

/-- C2, the spec's description of the center of mass (spec 4.5): the
position of the single masked atom when the mask holds exactly one index;
otherwise the periodic-aware com when a unit cell is present, else the
mass-weighted mean. Stated from the spec's words, to be compared with
recenter_frame, which is translated from the source. -/
def spec_com {α : Type} [Inhabited α] (ops : ExtOps α) (mol : Molecule α)
    (mask : List Nat) (fd : FrameData α) : Vec3 α :=
  if mask.length = 1 then atomPos fd (mask.headD 0)
  else if fd.header.unit_cell.flags != 0 then
    ops.vec3_deperiodize
      (ops.com_ortho fd.x fd.y fd.z mol.mass mask
        (ops.mat3_mul_ones fd.header.unit_cell.basis))
      (ops.half (ops.mat3_mul_ones fd.header.unit_cell.basis))
      (ops.mat3_mul_ones fd.header.unit_cell.basis)
  else ops.com_compute fd.x fd.y fd.z mol.mass mask

/-- C2, the spec's translation vector: t = box_ext/2 - com when the frame
has a unit cell, -com when it has none. -/
def spec_translation {α : Type} [Inhabited α] (ops : ExtOps α)
    (mol : Molecule α) (mask : List Nat) (fd : FrameData α) : Vec3 α :=
  if fd.header.unit_cell.flags != 0 then
    ops.sub (ops.half (ops.mat3_mul_ones fd.header.unit_cell.basis))
      (spec_com ops mol mask fd)
  else ops.neg (spec_com ops mol mask fd)

/-- C2: on a nonempty recenter mask, the decode's recenter step computes
the center of mass exactly as the spec describes (single-atom position
for a one-index mask, periodic-aware or mass-weighted mean otherwise)
and translates all atoms by the spec's translation vector. -/
theorem c2_recenter_com_and_translation {α : Type} [Inhabited α]
    (ops : ExtOps α) (mol : Molecule α) (mask : List Nat) (fd : FrameData α)
    (hmask : mask ≠ []) :
    recenter_frame ops mol mask fd =
      { fd with
        x := (ops.batch_translate fd.x fd.y fd.z
          (spec_translation ops mol mask fd)).1,
        y := (ops.batch_translate fd.x fd.y fd.z
          (spec_translation ops mol mask fd)).2.1,
        z := (ops.batch_translate fd.x fd.y fd.z
          (spec_translation ops mol mask fd)).2.2 } := by
  have h1 : mask.isEmpty = false := by
    cases mask with
    | nil => exact absurd rfl hmask
    | cons a l => rfl
  have h2 : ¬ mask.length = 0 := by simpa using hmask
  simp only [recenter_frame, spec_translation, spec_com, h1, h2,
    Bool.false_eq_true, if_false]

/-- C2 witness: the theorem at the one-index mask over the concrete
one-atom frame; the atom sits at (1,2,3), no cell is present, so the spec
translation is -(1,2,3) and the recentered coordinates are the origin. -/
theorem c2_witness :
    recenter_frame intOps sampleMol [0] sampleFrame =
      { sampleFrame with
        x := (intOps.batch_translate sampleFrame.x sampleFrame.y sampleFrame.z
          (spec_translation intOps sampleMol [0] sampleFrame)).1,
        y := (intOps.batch_translate sampleFrame.x sampleFrame.y sampleFrame.z
          (spec_translation intOps sampleMol [0] sampleFrame)).2.1,
        z := (intOps.batch_translate sampleFrame.x sampleFrame.y sampleFrame.z
          (spec_translation intOps sampleMol [0] sampleFrame)).2.2 } :=
  c2_recenter_com_and_translation intOps sampleMol [0] sampleFrame
    (List.cons_ne_nil 0 [])

/-- C3: when the created backend reports an atom count different from the
loaded molecule's, open_file destroys the backend (one more
loader->destroy call recorded), returns null through the incompatible
branch, and adds no entry to the open-trajectories table. -/
theorem c3_topology_mismatch {α : Type} (env : Env) (reg : Registry α)
    (loaderArg : Option TrajApi) (ext : Option String)
    (create : TrajApi → Option (Backend α)) (mol : Molecule α) (key : Nat)
    (l : TrajApi) (b : Backend α)
    (hl : resolve_loader loaderArg ext = some l)
    (hc : create l = some b)
    (hne : b.num_atoms ≠ mol.atom_count) :
    (open_file env reg loaderArg ext create mol key).2
        = OpenResult.null_incompatible ∧
    (open_file env reg loaderArg ext create mol key).1.loaded_trajectories
        = reg.loaded_trajectories ∧
    (open_file env reg loaderArg ext create mol key).1.destroyed_backends
        = reg.destroyed_backends + 1 := by
  simp [open_file, hl, hc, hne]

/-- Shared environment for the concrete runs: a 512 MiB configured cache
and 8 GiB of physical ram. -/
def envSample : Env :=
  { configured_cache_bytes := 512 * 1024 * 1024,
    physical_ram := 8 * 1024 * 1024 * 1024 }

/-- An empty open-trajectories table. -/
def emptyRegistry : Registry Int :=
  { loaded_trajectories := [], destroyed_backends := 0 }

/-- A two-atom molecule incompatible with the one-atom sampleBackend. -/
def mismatchMol : Molecule Int :=
  { atom_count := 2, mass := [1, 1], structures := [] }

/-- C3 witness: opening the one-atom backend against the two-atom
molecule on an empty table. -/
theorem c3_witness :
    (open_file envSample emptyRegistry (some TrajApi.xtc) none
        (fun _ => some sampleBackend) mismatchMol 7).2
        = OpenResult.null_incompatible ∧
    (open_file envSample emptyRegistry (some TrajApi.xtc) none
        (fun _ => some sampleBackend) mismatchMol 7).1.loaded_trajectories
        = emptyRegistry.loaded_trajectories ∧
    (open_file envSample emptyRegistry (some TrajApi.xtc) none
        (fun _ => some sampleBackend) mismatchMol 7).1.destroyed_backends
        = emptyRegistry.destroyed_backends + 1 :=
  c3_topology_mismatch envSample emptyRegistry (some TrajApi.xtc) none
    (fun _ => some sampleBackend) mismatchMol 7 TrajApi.xtc sampleBackend
    rfl rfl (by decide)

/-- A placeholder facade entry for filling the table to its bound. -/
def dummyEntry (k : Nat) : LoadedTrajectory Int :=
  { key := k, mol := sampleMol, traj := sampleBackend, cache := [],
    cache_capacity := 0, recenter_target := [], deperiodize := false }

/-- An open-trajectories table at its bound of eight entries. -/
def fullRegistry : Registry Int :=
  { loaded_trajectories :=
      [dummyEntry 10, dummyEntry 11, dummyEntry 12, dummyEntry 13,
        dummyEntry 14, dummyEntry 15, dummyEntry 16, dummyEntry 17],
    destroyed_backends := 0 }

/-- The ninth open_file call against the full table. -/
def ninthOpen : Registry Int × OpenResult :=
  open_file envSample fullRegistry (some TrajApi.xtc) none
    (fun _ => some sampleBackend) sampleMol 99

/-- C5 counterexample: with eight trajectories registered, a ninth
structurally valid open_file call does not fail by returning null - the
source has no capacity check that returns NULL; the
ASSERT(num_loaded_trajectories < 8) in alloc_loaded_trajectory is
violated instead (an abort in asserting builds, an out-of-bounds write
past loaded_trajectories[7] where ASSERT compiles away). -/
theorem c5_counterexample :
    ninthOpen.2 = OpenResult.assert_violation ∧
    OpenResult.returns_null ninthOpen.2 = false ∧
    ninthOpen.1.loaded_trajectories.length = 8 :=
  ⟨rfl, rfl, rfl⟩

/-- C5 amended: open_file has no capacity check and does not return null
when the table is full; a ninth open of a compatible backend over a full
table violates the capacity ASSERT in alloc_loaded_trajectory, the table
keeping its eight entries. -/
theorem c5_amended_capacity_assert {α : Type} (env : Env) (reg : Registry α)
    (loaderArg : Option TrajApi) (ext : Option String)
    (create : TrajApi → Option (Backend α)) (mol : Molecule α) (key : Nat)
    (l : TrajApi) (b : Backend α)
    (hl : resolve_loader loaderArg ext = some l)
    (hc : create l = some b)
    (hatoms : b.num_atoms = mol.atom_count)
    (hkey : find_loaded_trajectory reg key = none)
    (hlen : reg.loaded_trajectories.length = 8) :
    open_file env reg loaderArg ext create mol key
      = (reg, OpenResult.assert_violation) := by
  simp [open_file, hl, hc, hatoms, hkey, hlen]

/-- C5 witness: the amended theorem applied to the concrete full table. -/
theorem c5_witness :
    open_file envSample fullRegistry (some TrajApi.xtc) none
        (fun _ => some sampleBackend) sampleMol 99
      = (fullRegistry, OpenResult.assert_violation) :=
  c5_amended_capacity_assert envSample fullRegistry (some TrajApi.xtc) none
    (fun _ => some sampleBackend) sampleMol 99 TrajApi.xtc sampleBackend
    rfl rfl rfl rfl rfl

/-- C6: for every handle, load_frame at index -1 and at index num_frames
violates the 0 <= idx < num_frames assertion at the top of
decode_frame_data: the call aborts there, touching neither the cache nor
the backend, and no frame is produced. -/
theorem c6_load_frame_out_of_range {α : Type} [Inhabited α] (ops : ExtOps α)
    (lt : LoadedTrajectory α) :
    load_frame ops lt (-1) = DecodeResult.assert_violation ∧
    load_frame ops lt (lt.traj.num_frames : Int)
      = DecodeResult.assert_violation := by
  constructor
  · show decode_frame_data ops lt (-1) = DecodeResult.assert_violation
    unfold decode_frame_data
    have h : ¬ (0 ≤ (-1 : Int) ∧ (-1 : Int) < (lt.traj.num_frames : Int)) := by
      intro h
      exact absurd h.1 (by norm_num)
    rw [if_neg h]
  · show decode_frame_data ops lt (lt.traj.num_frames : Int)
      = DecodeResult.assert_violation
    unfold decode_frame_data
    have h : ¬ (0 ≤ (lt.traj.num_frames : Int) ∧
        (lt.traj.num_frames : Int) < (lt.traj.num_frames : Int)) := by
      intro h
      exact absurd h.2 (lt_irrefl _)
    rw [if_neg h]

/-- The facade entry open_file registers on success, its cache capacity
computed as in source lines 506-514. -/
def facade_entry {α : Type} (env : Env) (mol : Molecule α) (b : Backend α)
    (key : Nat) : LoadedTrajectory α :=
  { key := key, mol := mol, traj := b, cache := [],
    cache_capacity := min b.num_frames
      (CLAMP env.configured_cache_bytes (4 * 1024 * 1024)
        (env.physical_ram / 4) / (mol.atom_count * 3 * 4)),
    recenter_target := [], deperiodize := false }

/-- C7: a successful open_file appends one entry whose frame-cache
capacity is min(num_frames, available_bytes / approx_frame_bytes), where
available_bytes clamps the configured byte size to [4 MiB, ram/4] and
approx_frame_bytes is atom_count * 3 * 4 (sizeof(float)); the atom count
must be positive, the source dividing by approx_frame_bytes. -/
theorem c7_cache_capacity {α : Type} (env : Env) (reg : Registry α)
    (loaderArg : Option TrajApi) (ext : Option String)
    (create : TrajApi → Option (Backend α)) (mol : Molecule α) (key : Nat)
    (l : TrajApi) (b : Backend α)
    (hl : resolve_loader loaderArg ext = some l)
    (hc : create l = some b)
    (hatoms : b.num_atoms = mol.atom_count)
    (hkey : find_loaded_trajectory reg key = none)
    (hlen : reg.loaded_trajectories.length < 8)
    (hpos : 0 < mol.atom_count) :
    ∃ inst : LoadedTrajectory α,
      (open_file env reg loaderArg ext create mol key).1.loaded_trajectories
        = reg.loaded_trajectories ++ [inst] ∧
      inst.cache_capacity =
        min b.num_frames
          (min (max env.configured_cache_bytes (4 * 1024 * 1024))
            (env.physical_ram / 4) / (mol.atom_count * 3 * 4)) := by
  refine ⟨facade_entry env mol b key, ?_, rfl⟩
  simp [open_file, facade_entry, hl, hc, hatoms, hkey, hlen]

/-- C7 witness: the concrete one-atom, one-frame open on the empty table;
the capacity hypothesis chain is discharged by computation. -/
theorem c7_witness :
    ∃ inst : LoadedTrajectory Int,
      (open_file envSample emptyRegistry (some TrajApi.xtc) none
          (fun _ => some sampleBackend) sampleMol 7).1.loaded_trajectories
        = emptyRegistry.loaded_trajectories ++ [inst] ∧
      inst.cache_capacity =
        min sampleBackend.num_frames
          (min (max envSample.configured_cache_bytes (4 * 1024 * 1024))
            (envSample.physical_ram / 4) / (sampleMol.atom_count * 3 * 4)) :=
  c7_cache_capacity envSample emptyRegistry (some TrajApi.xtc) none
    (fun _ => some sampleBackend) sampleMol 7 TrajApi.xtc sampleBackend
    rfl rfl rfl rfl (by decide) (by decide)

/-- Opening the sample backend on an empty table under handle 1: the
starting point of the C9 run. -/
def c9Open : Registry Int × OpenResult :=
  open_file envSample emptyRegistry (some TrajApi.xtc) none
    (fun _ => some sampleBackend) sampleMol 1

/-- The C9 run after set_recenter_target(handle, mask of atom 0). -/
def c9RegMasked : Registry Int :=
  (set_recenter_target c9Open.1 1 (some [0])).1

/-- The C9 run after loading frame 0 under the mask: the frame is decoded,
recentered (the atom moves from (1,2,3) to the origin, no cell being
present) and cached. -/
def c9Loaded : Registry Int × Option (FrameData Int) :=
  registry_load_frame intOps c9RegMasked 1 0

/-- The C9 run after set_recenter_target(handle, null): the mask is
cleared, the cache untouched. -/
def c9RegCleared : Registry Int :=
  (set_recenter_target c9Loaded.1 1 none).1

/-- The frame the masked decode cached: sampleFrame recentered to the
origin. -/
def c9RecenteredFrame : FrameData Int :=
  { header := sampleFrame.header, x := [0], y := [0], z := [0] }

/-- C9 counterexample: after set_recenter_target(handle, null), loading
frame 0 again returns the stale recentered frame from the cache, while
the same handle before any recenter target was ever set returns the
backend's frame: the cleared handle does not decode as if no recenter
was ever set. -/
theorem c9_counterexample :
    (registry_load_frame intOps c9RegCleared 1 0).2 = some c9RecenteredFrame ∧
    (registry_load_frame intOps c9Open.1 1 0).2 = some sampleFrame ∧
    c9RecenteredFrame ≠ sampleFrame :=
  ⟨rfl, rfl, by decide⟩

/-- A lookup in an empty cache misses. -/
theorem cacheLookup_nil {α : Type} (i : Nat) :
    cacheLookup ([] : List (Nat × FrameData α)) i = none := rfl

/-- C9 amended: set_recenter_target(handle, null) clears the recenter
mask, and any subsequent decode of a frame NOT held in the cache produces
the very frame a handle whose target was never set (same backend and
molecule, empty cache) produces; frames decoded under the earlier target
and still cached are returned with the stale transform applied, the cache
not being invalidated by the mask change. -/
theorem c9_amended_cleared_mask_fresh_on_miss {α : Type} [Inhabited α]
    (ops : ExtOps α) (lt : LoadedTrajectory α) (idx : Int)
    (hmiss : cacheLookup lt.cache idx.toNat = none) :
    decodedFrame (decode_frame_data ops
        { lt with recenter_target := [] } idx) =
      decodedFrame (decode_frame_data ops
        { lt with recenter_target := [], cache := [] } idx) := by
  unfold decode_frame_data
  dsimp only
  by_cases hr : 0 ≤ idx ∧ idx < (lt.traj.num_frames : Int)
  · rw [if_pos hr, if_pos hr, hmiss, cacheLookup_nil]
    cases hdec : lt.traj.decode idx.toNat with
    | none => rfl
    | some raw => rfl
  · rw [if_neg hr, if_neg hr]

/-- C9 amended witness: the amended theorem at the concrete fresh handle
and frame 0, whose empty cache misses trivially. -/
theorem c9_amended_witness :
    decodedFrame (decode_frame_data intOps
        { sampleLT with recenter_target := [] } 0) =
      decodedFrame (decode_frame_data intOps
        { sampleLT with recenter_target := [], cache := [] } 0) :=
  c9_amended_cleared_mask_fresh_on_miss intOps sampleLT 0 rfl
